import Mathlib

/-!
Verification of the e-commerce backend (auth/token lifecycle, permissions,
pagination, product deletion, centralized error handling) against its
natural-language specification.  The TypeScript sources are shallowly
embedded: classes become namespaces of pure functions, the relational store
becomes explicit lists of rows threaded through each handler, and JWTs are
modelled symbolically (a signed token is its payload plus the signing
secret; equal encodings correspond to equal payload/secret pairs, since
HS256 signing is deterministic).
-/

set_option maxHeartbeats 1000000

namespace Ecom

/-! ## Enumerations (prisma schema / src/types) -/

inductive UserRole
  | ADMIN
  | SELLER
  | BUYER
deriving DecidableEq, Repr, Fintype

inductive SellerRole
  | MANAGER
  | ACCOUNTANT
  | INVENTORY_STAFF
deriving DecidableEq, Repr, Fintype

inductive UserStatus
  | ACTIVE
  | SUSPENDED
  | BANNED
deriving DecidableEq, Repr

inductive TokenType
  | access
  | refresh
deriving DecidableEq, Repr

/-! ## JWT utilities (src/utils JWTUtil)

`jwt.sign(payload, secret, {expiresIn})` deterministically encodes the
payload plus `iat`/`exp` claims (in seconds) under the secret, so a signed
token is modelled as the record of what the encoding determines: the
payload and the secret.  `jwt.verify` fails on a wrong secret or once the
current time reaches `exp`. -/

structure UserClaims where
  userId : String
  email : String
  role : UserRole
  sellerRole : Option SellerRole
deriving DecidableEq, Repr

structure TokenPayload where
  claims : UserClaims
  type : TokenType
  iat : Nat
  exp : Nat
deriving DecidableEq, Repr

structure Jwt where
  payload : TokenPayload
  secret : String
deriving DecidableEq, Repr

structure JWTConfig where
  accessSecret : String
  refreshSecret : String
deriving DecidableEq, Repr

namespace JWTUtil

def accessExpiresInSec : Nat := 15 * 60

def refreshExpiresInSec : Nat := 7 * 24 * 60 * 60

def generateAccessToken (cfg : JWTConfig) (c : UserClaims) (nowMs : Nat) : Jwt :=
  ⟨⟨c, TokenType.access, nowMs / 1000, nowMs / 1000 + accessExpiresInSec⟩, cfg.accessSecret⟩

def generateRefreshToken (cfg : JWTConfig) (c : UserClaims) (nowMs : Nat) : Jwt :=
  ⟨⟨c, TokenType.refresh, nowMs / 1000, nowMs / 1000 + refreshExpiresInSec⟩, cfg.refreshSecret⟩

def verifyAccessToken (cfg : JWTConfig) (nowMs : Nat) (t : Jwt) : Except String TokenPayload :=
  if t.secret ≠ cfg.accessSecret then .error "Invalid or expired access token"
  else if t.payload.exp ≤ nowMs / 1000 then .error "Invalid or expired access token"
  else if t.payload.type ≠ TokenType.access then .error "Invalid or expired access token"
  else .ok t.payload

def verifyRefreshToken (cfg : JWTConfig) (nowMs : Nat) (t : Jwt) : Except String TokenPayload :=
  if t.secret ≠ cfg.refreshSecret then .error "Invalid or expired refresh token"
  else if t.payload.exp ≤ nowMs / 1000 then .error "Invalid or expired refresh token"
  else if t.payload.type ≠ TokenType.refresh then .error "Invalid or expired refresh token"
  else .ok t.payload

structure TokenPair where
  accessToken : Jwt
  refreshToken : Jwt
deriving DecidableEq, Repr

def generateTokenPair (cfg : JWTConfig) (c : UserClaims) (nowMs : Nat) : TokenPair :=
  ⟨generateAccessToken cfg c nowMs, generateRefreshToken cfg c nowMs⟩

end JWTUtil

/-! ## Permission utilities (src/utils PermissionUtil) -/

namespace PermissionUtil

def canManageProducts (role : UserRole) (sellerRole : Option SellerRole) : Bool :=
  if role = UserRole.ADMIN then true
  else if role = UserRole.SELLER then
    sellerRole = some SellerRole.MANAGER ∨ sellerRole = some SellerRole.INVENTORY_STAFF
  else false

def canViewOrders (role : UserRole) (_sellerRole : Option SellerRole) : Bool :=
  if role = UserRole.ADMIN then true
  else if role = UserRole.SELLER then true
  else if role = UserRole.BUYER then true
  else false

def canManageOrders (role : UserRole) (sellerRole : Option SellerRole) : Bool :=
  if role = UserRole.ADMIN then true
  else if role = UserRole.SELLER then sellerRole = some SellerRole.MANAGER
  else false

def canViewFinancials (role : UserRole) (sellerRole : Option SellerRole) : Bool :=
  if role = UserRole.ADMIN then true
  else if role = UserRole.SELLER then
    sellerRole = some SellerRole.MANAGER ∨ sellerRole = some SellerRole.ACCOUNTANT
  else false

def canManageUsers (role : UserRole) : Bool :=
  role = UserRole.ADMIN

end PermissionUtil

/-! ## Password utilities (src/utils PasswordUtil) -/

namespace PasswordUtil

def isUpperChar (c : Char) : Bool := 'A' ≤ c ∧ c ≤ 'Z'

def isLowerChar (c : Char) : Bool := 'a' ≤ c ∧ c ≤ 'z'

def isDigitChar (c : Char) : Bool := '0' ≤ c ∧ c ≤ '9'

/-- The character class of the special-character regex in
`validatePasswordStrength` (brace, apostrophe, double quote and backslash
written via their code points). -/
def specialChars : List Char :=
  ['!', '@', '#', '$', '%', '^', '&', '*', '(', ')', '_', '+', '-', '=', '[', ']',
   Char.ofNat 123, Char.ofNat 125, ';', Char.ofNat 39, ':', Char.ofNat 34,
   Char.ofNat 92, '|', ',', '.', '<', '>', '?']

def isSpecialChar (c : Char) : Bool := specialChars.contains c

structure PasswordCheck where
  isValid : Bool
  errors : List String
deriving DecidableEq, Repr

def validatePasswordStrength (password : List Char) : PasswordCheck :=
  let e1 : List String :=
    if password.length < 8 then ["Password must be at least 8 characters long"] else []
  let e2 : List String :=
    if password.any isUpperChar then []
    else ["Password must contain at least one uppercase letter"]
  let e3 : List String :=
    if password.any isLowerChar then []
    else ["Password must contain at least one lowercase letter"]
  let e4 : List String :=
    if password.any isDigitChar then []
    else ["Password must contain at least one number"]
  let e5 : List String :=
    if password.any isSpecialChar then []
    else ["Password must contain at least one special character"]
  let errors := e1 ++ e2 ++ e3 ++ e4 ++ e5
  ⟨errors.isEmpty, errors⟩

end PasswordUtil

/-! ## Response utilities (src/utils ResponseUtil) -/

structure PageMeta where
  page : Nat
  limit : Nat
  total : Nat
  totalPages : Int
  hasNext : Bool
  hasPrev : Bool
deriving DecidableEq, Repr

structure PaginatedList (α : Type) where
  data : List α
  meta : PageMeta
deriving Repr

namespace ResponseUtil

def paginate {α : Type} (data : List α) (page limit total : Nat) : PaginatedList α :=
  let totalPages : Int := ⌈(total : ℚ) / (limit : ℚ)⌉
  ⟨data,
    ⟨page, limit, total, totalPages,
      decide ((page : Int) < totalPages), decide (1 < page)⟩⟩

end ResponseUtil

/-- The `skip`/`take` window the list endpoints pass to the store:
`skip = (page - 1) * limit`, `take = limit` (ProductController.getProducts). -/
def pageSlice {α : Type} (xs : List α) (page limit : Nat) : List α :=
  (xs.drop ((page - 1) * limit)).take limit

/-! ## Relational store rows

Each Prisma table the embedded handlers touch becomes a list of rows; a
`findUnique` becomes `List.find?`, a `deleteMany` a `List.filter`, an
`update` a `List.map` over the unique key. -/

structure UserRecord where
  id : String
  email : String
  password : String
  role : UserRole
  sellerRole : Option SellerRole
  status : UserStatus
deriving DecidableEq, Repr

structure RefreshTokenRow where
  id : Nat
  token : Jwt
  userId : String
  expiresAt : Nat
deriving DecidableEq, Repr

structure DB where
  users : List UserRecord
  refreshTokens : List RefreshTokenRow
deriving DecidableEq, Repr

/-- An error produced through `ErrorUtil` or a bare `throw`, as the
centralized handler sees it: HTTP status plus message (a bare `Error` has
no `statusCode`, which the handler defaults to 500). -/
structure AppErr where
  statusCode : Nat
  message : String
deriving DecidableEq, Repr

structure AuthOk where
  userId : String
  tokens : JWTUtil.TokenPair
deriving DecidableEq, Repr

/-! ## AuthController (authController.ts)

`bcrypt.compare` is passed in as an oracle `cmp : password → storedHash →
Bool`, and the freshly hashed password / fresh row id are arguments, since
bcrypt salting and id generation are external to the control flow being
verified.  `nowMs` is the millisecond clock (`Date.now()`). -/

namespace AuthController

def login (cmp : String → String → Bool) (cfg : JWTConfig) (db : DB)
    (email pw : String) (nowMs rowId : Nat) : Except AppErr AuthOk × DB :=
  match db.users.find? (fun u => u.email = email) with
  | none => (.error ⟨401, "Invalid email or password"⟩, db)
  | some user =>
    if user.status ≠ UserStatus.ACTIVE then
      (.error ⟨401, "Account is suspended or banned"⟩, db)
    else if cmp pw user.password = false then
      (.error ⟨401, "Invalid email or password"⟩, db)
    else
      let pair := JWTUtil.generateTokenPair cfg
        ⟨user.id, user.email, user.role, user.sellerRole⟩ nowMs
      let row : RefreshTokenRow :=
        ⟨rowId, pair.refreshToken, user.id, nowMs + 7 * 24 * 60 * 60 * 1000⟩
      (.ok ⟨user.id, pair⟩, { db with refreshTokens := db.refreshTokens ++ [row] })

def logout (db : DB) (cookieToken : Option Jwt) (userId : String) :
    Except AppErr String × DB :=
  match cookieToken with
  | none => (.ok "Logged out successfully", db)
  | some t =>
    (.ok "Logged out successfully",
      { db with refreshTokens :=
          db.refreshTokens.filter (fun r => ¬(r.token = t ∧ r.userId = userId)) })

def logoutAll (db : DB) (userId : String) : Except AppErr String × DB :=
  (.ok "Logged out from all devices successfully",
    { db with refreshTokens := db.refreshTokens.filter (fun r => r.userId ≠ userId) })

def changePassword (cmp : String → String → Bool) (hashedNew : String) (db : DB)
    (userId currentPw : String) : Except AppErr String × DB :=
  match db.users.find? (fun u => u.id = userId) with
  | none => (.error ⟨404, "User not found"⟩, db)
  | some user =>
    if cmp currentPw user.password = false then
      (.error ⟨401, "Current password is incorrect"⟩, db)
    else
      (.ok "Password changed successfully. Please login again.",
        { users := db.users.map (fun u =>
            if u.id = userId then { u with password := hashedNew } else u),
          refreshTokens := db.refreshTokens.filter (fun r => r.userId ≠ userId) })

def refreshToken (cfg : JWTConfig) (db : DB) (presented : Jwt) (nowMs : Nat) :
    Except AppErr AuthOk × DB :=
  match JWTUtil.verifyRefreshToken cfg nowMs presented with
  | .error msg => (.error ⟨500, msg⟩, db)
  | .ok _ =>
    match db.refreshTokens.find? (fun r => r.token = presented) with
    | none => (.error ⟨401, "Invalid refresh token"⟩, db)
    | some tr =>
      if tr.expiresAt < nowMs then
        (.error ⟨401, "Refresh token expired"⟩,
          { db with refreshTokens := db.refreshTokens.filter (fun r => r.id ≠ tr.id) })
      else
        match db.users.find? (fun u => u.id = tr.userId) with
        | none => (.error ⟨500, "Internal Server Error"⟩, db)
        | some user =>
          if user.status ≠ UserStatus.ACTIVE then
            (.error ⟨401, "Account is suspended or banned"⟩, db)
          else
            let pair := JWTUtil.generateTokenPair cfg
              ⟨user.id, user.email, user.role, user.sellerRole⟩ nowMs
            (.ok ⟨user.id, pair⟩,
              { db with refreshTokens := db.refreshTokens.map (fun r =>
                  if r.id = tr.id then
                    { r with token := pair.refreshToken,
                             expiresAt := nowMs + 7 * 24 * 60 * 60 * 1000 }
                  else r) })

end AuthController

/-! ## ProductController.deleteProduct (productController.ts) -/

structure Product where
  id : String
  sellerId : String
  title : String
  price : Int
  stock : Nat
  isActive : Bool
deriving DecidableEq, Repr

structure OrderItemRow where
  id : Nat
  productId : String
  quantity : Nat
deriving DecidableEq, Repr

structure AuthUser where
  id : String
  role : UserRole
  sellerRole : Option SellerRole
deriving DecidableEq, Repr

namespace ProductController

def deleteProduct (reqUser : AuthUser) (pid : String)
    (products : List Product) (orderItems : List OrderItemRow) :
    Except AppErr String × List Product :=
  if PermissionUtil.canManageProducts reqUser.role reqUser.sellerRole = false then
    (.error ⟨403, "You do not have permission to manage products"⟩, products)
  else
    match products.find? (fun p => p.id = pid) with
    | none => (.error ⟨404, "Product not found"⟩, products)
    | some p =>
      if reqUser.role = UserRole.SELLER ∧ p.sellerId ≠ reqUser.id then
        (.error ⟨403, "You can only delete your own products"⟩, products)
      else
        let orderCount := (orderItems.filter (fun oi => oi.productId = pid)).length
        if 0 < orderCount then
          (.ok "Product deactivated successfully (has existing orders)",
            products.map (fun q => if q.id = pid then { q with isActive := false } else q))
        else
          (.ok "Product deleted successfully",
            products.filter (fun q => ¬ q.id = pid))

end ProductController

/-! ## Real-time order-status-update handler (socket handlers)

The handler's observable effects are the events it emits and the state of
the order store it leaves behind; both are made explicit. -/

structure SocketUser where
  id : String
  name : String
  role : UserRole
deriving DecidableEq, Repr

structure OrderRecord where
  id : String
  orderNumber : String
  status : String
  buyerId : String
  sellerId : String
deriving DecidableEq, Repr

structure StatusHistoryRow where
  orderId : String
  status : String
  notes : Option String
deriving DecidableEq, Repr

structure OrderDB where
  orders : List OrderRecord
  statusHistory : List StatusHistoryRow
deriving DecidableEq, Repr

inductive SocketEmit
  | errorMsg (message : String)
  | notification (toUserId : String) (title : String) (message : String)
  | orderUpdated (toUserId : String) (orderId : String) (status : String) (notes : Option String)
  | statusAck (orderId : String) (status : String)
deriving DecidableEq, Repr

namespace SocketHandlers

def orderStatusUpdate (user : SocketUser) (orderId status : String)
    (notes : Option String) (db : OrderDB) : List SocketEmit × OrderDB :=
  if user.role ≠ UserRole.SELLER ∧ user.role ≠ UserRole.ADMIN then
    ([.errorMsg "Unauthorized"], db)
  else
    match db.orders.find? (fun o => o.id = orderId) with
    | none => ([.errorMsg "Order not found"], db)
    | some order =>
      if user.role = UserRole.SELLER ∧ order.sellerId ≠ user.id then
        ([.errorMsg "Unauthorized"], db)
      else
        ([.notification order.buyerId "Order Status Updated"
            ("Your order #" ++ order.orderNumber ++ " status has been updated to " ++ status),
          .orderUpdated order.buyerId order.id status notes,
          .statusAck order.id status], db)

end SocketHandlers

/-! ## Centralized error handler (middleware errorHandler) -/

structure ZodIssueIn where
  path : List String
  message : String
  received : String
deriving DecidableEq, Repr

structure MongooseFieldError where
  path : String
  message : String
  value : String
deriving DecidableEq, Repr

/-- The incoming error object, with the dynamic properties the handler
inspects (`undefined` becomes `none`). -/
structure ErrInput where
  name : Option String
  code : Option String
  statusCode : Option Nat
  message : String
  metaTarget : Option (List String)
  issues : List ZodIssueIn
  fieldErrors : List MongooseFieldError
deriving DecidableEq, Repr

structure ValidationDetail where
  field : String
  message : String
  value : String
deriving DecidableEq, Repr

/-- The JSON error envelope the handler sends (flattened: the validation
list is only present on the early-return validation branches, the
code/statusCode error object only on the fall-through branch). -/
structure ErrorBody where
  success : Bool
  message : String
  errCode : Option String
  errStatusCode : Option Nat
  validation : Option (List ValidationDetail)
deriving DecidableEq, Repr

/-- `String.startsWith` of JavaScript, on character lists (kept structural
so that the kernel can evaluate it). -/
def startsWithList : List Char → List Char → Bool
  | _, [] => true
  | [], _ :: _ => false
  | c :: cs, d :: ds => c = d && startsWithList cs ds

/-- Substring containment at some offset. -/
def containsSubList (sub : List Char) : List Char → Bool
  | [] => startsWithList [] sub
  | c :: cs => startsWithList (c :: cs) sub || containsSubList sub cs

/-- `String.includes` of JavaScript. -/
def includesSubstr (s sub : String) : Bool := containsSubList sub.data s.data

/-- `error.code?.startsWith('P')` (an absent code is falsy). -/
def codeStartsWithP (code : Option String) : Bool :=
  startsWithList (code.getD "").data ['P']

def errorHandler (e : ErrInput) : Nat × ErrorBody :=
  let s0 := e.statusCode.getD 500
  let m0 := if e.message = "" then "Internal Server Error" else e.message
  let c0 := e.code
  let r1 : Nat × String × Option String :=
    if e.name = some "JsonWebTokenError" then (401, "Invalid token", some "INVALID_TOKEN")
    else if e.name = some "TokenExpiredError" then (401, "Token expired", some "TOKEN_EXPIRED")
    else (s0, m0, c0)
  let r2 : Nat × String × Option String :=
    if e.code = some "P2002" then
      (409,
        "Duplicate entry: " ++
          (match e.metaTarget with
           | some ts => String.intercalate ", " ts
           | none => "field") ++ " already exists",
        some "DUPLICATE_ENTRY")
    else if e.code = some "P2025" then (404, "Record not found", some "NOT_FOUND")
    else if codeStartsWithP e.code then
      (400, "Database operation failed", some "DATABASE_ERROR")
    else r1
  if e.name = some "ZodError" then
    (400, ⟨false, "Validation failed", none, some 400,
      some (e.issues.map (fun i => ⟨String.intercalate "." i.path, i.message, i.received⟩))⟩)
  else
    let r3 : Nat × String × Option String :=
      if e.code = some "LIMIT_FILE_SIZE" then (413, "File size too large", some "FILE_SIZE_ERROR")
      else if e.code = some "LIMIT_UNEXPECTED_FILE" then
        (400, "Unexpected file field", some "INVALID_FILE_FIELD")
      else r2
    if e.name = some "ValidationError" then
      (400, ⟨false, "Validation failed", none, some 400,
        some (e.fieldErrors.map (fun f => ⟨f.path, f.message, f.value⟩))⟩)
    else
      let r4 : Nat × String × Option String :=
        if e.message = "Not allowed by CORS" then
          (403, "CORS policy violation", some "CORS_ERROR")
        else r3
      let r5 : Nat × String × Option String :=
        if e.message ≠ "" ∧ includesSubstr e.message "Too many requests" then
          (429, "Too many requests, please try again later", some "RATE_LIMIT_EXCEEDED")
        else r4
      let r6 : Nat × String × Option String :=
        if e.code = some "ECONNREFUSED" ∨ e.code = some "ENOTFOUND" then
          (503, "Service unavailable", some "SERVICE_UNAVAILABLE")
        else r5
      (r6.1, ⟨false, r6.2.1, r6.2.2, some r6.1, none⟩)

/-! ## Claims -/

deriving instance DecidableEq for Except

/-- C9: login failure indistinguishability — an unregistered email and a
wrong password for an ACTIVE account produce the identical observable
outcome: status 401, message "Invalid email or password", store unchanged. -/
theorem claim_C9 :
    ∀ (cmp : String → String → Bool) (cfg : JWTConfig) (db : DB)
      (email pw : String) (nowMs rowId : Nat),
    (db.users.find? (fun u => u.email = email) = none →
      AuthController.login cmp cfg db email pw nowMs rowId =
        (.error ⟨401, "Invalid email or password"⟩, db)) ∧
    (∀ u, db.users.find? (fun u2 => u2.email = email) = some u →
      u.status = UserStatus.ACTIVE →
      cmp pw u.password = false →
      AuthController.login cmp cfg db email pw nowMs rowId =
        (.error ⟨401, "Invalid email or password"⟩, db)) := by
  intro cmp cfg db email pw nowMs rowId
  constructor
  · intro h
    unfold AuthController.login
    rw [h]
  · intro u hu hact hcmp
    unfold AuthController.login
    rw [hu]
    simp [hact, hcmp]

/-- Witness for C9: in a one-user store, a login with an unknown email and
a login with the right email but wrong password both return the same
401 "Invalid email or password" response and leave the store unchanged. -/
theorem claim_C9_witness :
    let cfg : JWTConfig := ⟨"access-secret-key", "refresh-secret-key"⟩
    let db : DB :=
      ⟨[⟨"u1", "buyer@example.com", "hashed", UserRole.BUYER, none, UserStatus.ACTIVE⟩], []⟩
    AuthController.login (fun p h => p == h) cfg db "absent@example.com" "pw" 0 1 =
      (.error ⟨401, "Invalid email or password"⟩, db) ∧
    AuthController.login (fun p h => p == h) cfg db "buyer@example.com" "wrong" 0 1 =
      (.error ⟨401, "Invalid email or password"⟩, db) :=
  ⟨(claim_C9 (fun p h => p == h) _ _ "absent@example.com" "pw" 0 1).1 (by rfl),
   (claim_C9 (fun p h => p == h) _ _ "buyer@example.com" "wrong" 0 1).2
      ⟨"u1", "buyer@example.com", "hashed", UserRole.BUYER, none, UserStatus.ACTIVE⟩
      (by rfl) rfl (by rfl)⟩

/-- C1: refresh-token revocation — (1) logout removes exactly the rows
matching both the presented token and the user's id; (2) a successful
changePassword removes exactly the user's rows; (3) a refresh attempt on a
stored record whose expiresAt is in the past deletes that record and fails
with 401 "Refresh token expired"; moreover (4) login never removes a row,
and (5) a refresh that does not fail with the expiry error keeps every
stored row (tracked by id and owner). -/
theorem claim_C1 :
    (∀ (db : DB) (t : Jwt) (uid : String) (r : RefreshTokenRow),
      r ∈ (AuthController.logout db (some t) uid).2.refreshTokens ↔
        r ∈ db.refreshTokens ∧ ¬(r.token = t ∧ r.userId = uid)) ∧
    (∀ (cmp : String → String → Bool) (hnew : String) (db : DB) (uid curr : String)
        (u : UserRecord),
      db.users.find? (fun x => x.id = uid) = some u →
      cmp curr u.password = true →
      ∀ (r : RefreshTokenRow),
        r ∈ (AuthController.changePassword cmp hnew db uid curr).2.refreshTokens ↔
          r ∈ db.refreshTokens ∧ r.userId ≠ uid) ∧
    (∀ (cfg : JWTConfig) (db : DB) (t : Jwt) (nowMs : Nat) (tr : RefreshTokenRow)
        (p : TokenPayload),
      JWTUtil.verifyRefreshToken cfg nowMs t = .ok p →
      db.refreshTokens.find? (fun r => r.token = t) = some tr →
      tr.expiresAt < nowMs →
      (AuthController.refreshToken cfg db t nowMs).1 = .error ⟨401, "Refresh token expired"⟩ ∧
      tr ∉ (AuthController.refreshToken cfg db t nowMs).2.refreshTokens ∧
      ∀ r ∈ db.refreshTokens, r.id ≠ tr.id →
        r ∈ (AuthController.refreshToken cfg db t nowMs).2.refreshTokens) ∧
    (∀ (cmp : String → String → Bool) (cfg : JWTConfig) (db : DB)
        (email pw : String) (nowMs rowId : Nat) (r : RefreshTokenRow),
      r ∈ db.refreshTokens →
      r ∈ (AuthController.login cmp cfg db email pw nowMs rowId).2.refreshTokens) ∧
    (∀ (cfg : JWTConfig) (db : DB) (t : Jwt) (nowMs : Nat),
      (AuthController.refreshToken cfg db t nowMs).1 ≠
          .error ⟨401, "Refresh token expired"⟩ →
      ∀ r ∈ db.refreshTokens,
        ∃ r' ∈ (AuthController.refreshToken cfg db t nowMs).2.refreshTokens,
          r'.id = r.id ∧ r'.userId = r.userId) := by
  refine ⟨?_, ?_, ?_, ?_, ?_⟩
  · intro db t uid r
    unfold AuthController.logout
    simp [List.mem_filter]
    tauto
  · intro cmp hnew db uid curr u hu hcmp r
    simp [AuthController.changePassword, hu, hcmp, List.mem_filter]
  · intro cfg db t nowMs tr p hver hfind hexp
    refine ⟨?_, ?_, ?_⟩
    · simp [AuthController.refreshToken, hver, hfind, hexp]
    · simp [AuthController.refreshToken, hver, hfind, hexp, List.mem_filter]
    · intro r hr hid
      simp [AuthController.refreshToken, hver, hfind, hexp, List.mem_filter, hr, hid]
  · intro cmp cfg db email pw nowMs rowId r hr
    unfold AuthController.login
    cases hf : db.users.find? (fun u => u.email = email) with
    | none => simpa using hr
    | some u =>
      by_cases h1 : u.status ≠ UserStatus.ACTIVE
      · simp [h1, hr]
      · by_cases h2 : cmp pw u.password = false
        · simp [h1, h2, hr]
        · simp [h1, h2, hr]
  · intro cfg db t nowMs hne r hr
    cases hver : JWTUtil.verifyRefreshToken cfg nowMs t with
    | error msg =>
      exact ⟨r, by simp [AuthController.refreshToken, hver, hr], rfl, rfl⟩
    | ok p =>
      cases hfind : db.refreshTokens.find? (fun x => x.token = t) with
      | none =>
        exact ⟨r, by simp [AuthController.refreshToken, hver, hfind, hr], rfl, rfl⟩
      | some tr =>
        by_cases hexp : tr.expiresAt < nowMs
        · exact absurd (by simp [AuthController.refreshToken, hver, hfind, hexp]) hne
        · cases huser : db.users.find? (fun u => u.id = tr.userId) with
          | none =>
            exact ⟨r, by simp [AuthController.refreshToken, hver, hfind, hexp, huser, hr],
              rfl, rfl⟩
          | some user =>
            by_cases hstat : user.status ≠ UserStatus.ACTIVE
            · exact ⟨r,
                by simp [AuthController.refreshToken, hver, hfind, hexp, huser, hstat, hr],
                rfl, rfl⟩
            · refine ⟨if r.id = tr.id then
                  { r with
                    token := (JWTUtil.generateTokenPair cfg
                      ⟨user.id, user.email, user.role, user.sellerRole⟩ nowMs).refreshToken,
                    expiresAt := nowMs + 7 * 24 * 60 * 60 * 1000 }
                else r, ?_, ?_, ?_⟩
              · simp only [AuthController.refreshToken, hver, hfind, if_neg hexp, huser,
                  if_neg hstat]
                exact List.mem_map_of_mem _ hr
              · split <;> rfl
              · split <;> rfl

/-- Witness for C1 at a concrete one-user store: the logout and
changePassword membership characterizations, and the expired-refresh
deletion, each instantiated and evaluated. -/
theorem claim_C1_witness :
    let cfg : JWTConfig := ⟨"access-secret-key", "refresh-secret-key"⟩
    let t := JWTUtil.generateRefreshToken cfg ⟨"u1", "buyer@example.com", UserRole.BUYER, none⟩ 0
    let row : RefreshTokenRow := ⟨1, t, "u1", 100⟩
    let db : DB :=
      ⟨[⟨"u1", "buyer@example.com", "hashed", UserRole.BUYER, none, UserStatus.ACTIVE⟩], [row]⟩
    (row ∈ (AuthController.logout db (some t) "u1").2.refreshTokens ↔
      row ∈ db.refreshTokens ∧ ¬(row.token = t ∧ row.userId = "u1")) ∧
    (row ∈ (AuthController.changePassword (fun p h => p == h) "newhash" db
        "u1" "hashed").2.refreshTokens ↔
      row ∈ db.refreshTokens ∧ row.userId ≠ "u1") ∧
    ((AuthController.refreshToken cfg db t 200).1 = .error ⟨401, "Refresh token expired"⟩ ∧
      row ∉ (AuthController.refreshToken cfg db t 200).2.refreshTokens ∧
      ∀ r ∈ db.refreshTokens, r.id ≠ row.id →
        r ∈ (AuthController.refreshToken cfg db t 200).2.refreshTokens) := by
  refine ⟨claim_C1.1 _ _ "u1" _,
    claim_C1.2.1 (fun p h => p == h) "newhash" _ "u1" "hashed"
      ⟨"u1", "buyer@example.com", "hashed", UserRole.BUYER, none, UserStatus.ACTIVE⟩
      (by rfl) (by rfl) _,
    claim_C1.2.2.1 _ _ _ 200 _
      (JWTUtil.generateRefreshToken ⟨"access-secret-key", "refresh-secret-key"⟩
        ⟨"u1", "buyer@example.com", UserRole.BUYER, none⟩ 0).payload
      (by rfl) (by rfl) (by decide)⟩

/-- Concrete auth fixture: the default secrets from the source. -/
def c2cfg : JWTConfig := ⟨"access-secret-key", "refresh-secret-key"⟩

def c2claims : UserClaims := ⟨"u1", "buyer@example.com", UserRole.BUYER, none⟩

/-- A refresh token issued at 1000 ms (so with iat = 1 s). -/
def c2token : Jwt := JWTUtil.generateRefreshToken c2cfg c2claims 1000

def c2row : RefreshTokenRow := ⟨1, c2token, "u1", 604801000⟩

def c2user : UserRecord :=
  ⟨"u1", "buyer@example.com", "hashed", UserRole.BUYER, none, UserStatus.ACTIVE⟩

def c2db : DB := ⟨[c2user], [c2row]⟩

/-- Counterexample to C2 as stated: `jwt.sign` is deterministic and `iat`
has second granularity, so a refresh at 1500 ms of a token issued at
1000 ms regenerates the identical token.  All of the claim's premises hold
(stored, unexpired, ACTIVE owner, refresh succeeds), yet the previously
presented token string still exists in the refresh-token store. -/
theorem claim_C2_counterexample :
    (c2db.refreshTokens.find? (fun r => r.token = c2token) = some c2row ∧
      ¬ c2row.expiresAt < 1500 ∧
      c2user.status = UserStatus.ACTIVE ∧
      (AuthController.refreshToken c2cfg c2db c2token 1500).1.isOk = true) ∧
    ∃ r ∈ (AuthController.refreshToken c2cfg c2db c2token 1500).2.refreshTokens,
      r.token = c2token := by
  decide

/-- C2 (amended): a successful refresh of a valid, unexpired, stored token
of an ACTIVE user updates the stored row in place (same id and owner, new
token, expiry 7 days from now) and returns the fresh pair; and provided
the newly generated refresh token differs from the presented one (they
coincide when the refresh falls in the same second as issuance with
unchanged claims) and tokens are unique across rows, the presented token
string no longer exists in the store. -/
theorem claim_C2 :
    ∀ (cfg : JWTConfig) (db : DB) (t : Jwt) (nowMs : Nat) (tr : RefreshTokenRow)
      (u : UserRecord) (p : TokenPayload),
    JWTUtil.verifyRefreshToken cfg nowMs t = .ok p →
    db.refreshTokens.find? (fun r => r.token = t) = some tr →
    ¬ tr.expiresAt < nowMs →
    db.users.find? (fun x => x.id = tr.userId) = some u →
    u.status = UserStatus.ACTIVE →
    ((AuthController.refreshToken cfg db t nowMs).1 =
      .ok ⟨u.id, JWTUtil.generateTokenPair cfg ⟨u.id, u.email, u.role, u.sellerRole⟩ nowMs⟩) ∧
    (∃ r' ∈ (AuthController.refreshToken cfg db t nowMs).2.refreshTokens,
      r'.id = tr.id ∧ r'.userId = tr.userId ∧
      r'.token = (JWTUtil.generateTokenPair cfg
        ⟨u.id, u.email, u.role, u.sellerRole⟩ nowMs).refreshToken ∧
      r'.expiresAt = nowMs + 7 * 24 * 60 * 60 * 1000) ∧
    ((∀ r ∈ db.refreshTokens, r.token = t → r = tr) →
      (JWTUtil.generateTokenPair cfg
        ⟨u.id, u.email, u.role, u.sellerRole⟩ nowMs).refreshToken ≠ t →
      ∀ r' ∈ (AuthController.refreshToken cfg db t nowMs).2.refreshTokens, r'.token ≠ t) := by
  intro cfg db t nowMs tr u p hver hfind hexp huser hact
  have htr : tr ∈ db.refreshTokens := List.mem_of_find?_eq_some hfind
  refine ⟨?_, ?_, ?_⟩
  · simp [AuthController.refreshToken, hver, hfind, hexp, huser, hact]
  · refine ⟨{ tr with
        token := (JWTUtil.generateTokenPair cfg
          ⟨u.id, u.email, u.role, u.sellerRole⟩ nowMs).refreshToken,
        expiresAt := nowMs + 7 * 24 * 60 * 60 * 1000 }, ?_, rfl, rfl, rfl, rfl⟩
    simp only [AuthController.refreshToken, hver, hfind, if_neg hexp, huser,
      if_neg (by simp [hact] : ¬ u.status ≠ UserStatus.ACTIVE)]
    have := List.mem_map_of_mem (fun r =>
      if r.id = tr.id then
        { r with
          token := (JWTUtil.generateTokenPair cfg
            ⟨u.id, u.email, u.role, u.sellerRole⟩ nowMs).refreshToken,
          expiresAt := nowMs + 7 * 24 * 60 * 60 * 1000 }
      else r) htr
    simpa using this
  · intro huniq hne r' hr'
    simp only [AuthController.refreshToken, hver, hfind, if_neg hexp, huser,
      if_neg (by simp [hact] : ¬ u.status ≠ UserStatus.ACTIVE)] at hr'
    simp only [List.mem_map] at hr'
    obtain ⟨r, hr, hfr⟩ := hr'
    by_cases hid : r.id = tr.id
    · rw [if_pos hid] at hfr
      intro habs
      rw [← hfr] at habs
      exact hne habs
    · rw [if_neg hid] at hfr
      subst hfr
      intro habs
      exact hid (congrArg RefreshTokenRow.id (huniq r hr habs))

/-- Witness for C2 (amended) at the concrete fixture: refreshing at
5000 ms (a later second than issuance) succeeds, rewrites the stored row
in place, and afterwards no stored row carries the presented token. -/
theorem claim_C2_witness :
    ((AuthController.refreshToken c2cfg c2db c2token 5000).1 =
      .ok ⟨c2user.id, JWTUtil.generateTokenPair c2cfg
        ⟨c2user.id, c2user.email, c2user.role, c2user.sellerRole⟩ 5000⟩) ∧
    (∃ r' ∈ (AuthController.refreshToken c2cfg c2db c2token 5000).2.refreshTokens,
      r'.id = c2row.id ∧ r'.userId = c2row.userId ∧
      r'.token = (JWTUtil.generateTokenPair c2cfg
        ⟨c2user.id, c2user.email, c2user.role, c2user.sellerRole⟩ 5000).refreshToken ∧
      r'.expiresAt = 5000 + 7 * 24 * 60 * 60 * 1000) ∧
    (∀ r' ∈ (AuthController.refreshToken c2cfg c2db c2token 5000).2.refreshTokens,
      r'.token ≠ c2token) := by
  have h := claim_C2 c2cfg c2db c2token 5000 c2row c2user c2token.payload
    (by rfl) (by rfl) (by decide) (by rfl) (by rfl)
  exact ⟨h.1, h.2.1, h.2.2 (by decide) (by decide)⟩

/-- C3: deleteProduct by an authorized, owning user soft-deactivates the
product (sets isActive to false, touching nothing else and removing no
row) when some order item references it, and hard-deletes exactly that
product's row otherwise. -/
theorem claim_C3 :
    ∀ (reqUser : AuthUser) (pid : String) (products : List Product)
      (orderItems : List OrderItemRow) (p : Product),
    PermissionUtil.canManageProducts reqUser.role reqUser.sellerRole = true →
    products.find? (fun q => q.id = pid) = some p →
    ¬(reqUser.role = UserRole.SELLER ∧ p.sellerId ≠ reqUser.id) →
    ((∃ oi ∈ orderItems, oi.productId = pid) →
      (ProductController.deleteProduct reqUser pid products orderItems).1 =
        .ok "Product deactivated successfully (has existing orders)" ∧
      (ProductController.deleteProduct reqUser pid products orderItems).2 =
        products.map (fun q => if q.id = pid then { q with isActive := false } else q) ∧
      (ProductController.deleteProduct reqUser pid products orderItems).2.length =
        products.length ∧
      { p with isActive := false } ∈
        (ProductController.deleteProduct reqUser pid products orderItems).2 ∧
      ∀ q ∈ products, q.id ≠ pid →
        q ∈ (ProductController.deleteProduct reqUser pid products orderItems).2) ∧
    ((¬ ∃ oi ∈ orderItems, oi.productId = pid) →
      (ProductController.deleteProduct reqUser pid products orderItems).1 =
        .ok "Product deleted successfully" ∧
      (∀ q ∈ (ProductController.deleteProduct reqUser pid products orderItems).2,
        q ∈ products ∧ q.id ≠ pid) ∧
      ∀ q ∈ products, q.id ≠ pid →
        q ∈ (ProductController.deleteProduct reqUser pid products orderItems).2) := by
  intro reqUser pid products orderItems p hperm hfind hown
  have hp : p ∈ products := List.mem_of_find?_eq_some hfind
  have hpid : p.id = pid := by
    have := List.find?_some hfind
    simpa using this
  constructor
  · intro hex
    have hcnt : 0 < (orderItems.filter (fun oi => oi.productId = pid)).length := by
      obtain ⟨oi, hoi, hoiEq⟩ := hex
      have hmem : oi ∈ orderItems.filter (fun oi => oi.productId = pid) :=
        List.mem_filter.mpr ⟨hoi, by simp [hoiEq]⟩
      exact List.length_pos.mpr (List.ne_nil_of_mem hmem)
    refine ⟨?_, ?_, ?_, ?_, ?_⟩
    · simp [ProductController.deleteProduct, hperm, hfind, hown, hcnt]
    · simp [ProductController.deleteProduct, hperm, hfind, hown, hcnt]
    · simp [ProductController.deleteProduct, hperm, hfind, hown, hcnt]
    · simp only [ProductController.deleteProduct, hperm, Bool.true_eq_false, if_false,
        hfind, if_neg hown, if_pos hcnt]
      have := List.mem_map_of_mem
        (fun q => if q.id = pid then { q with isActive := false } else q) hp
      simpa [hpid] using this
    · intro q hq hqid
      simp only [ProductController.deleteProduct, hperm, Bool.true_eq_false, if_false,
        hfind, if_neg hown, if_pos hcnt]
      have := List.mem_map_of_mem
        (fun q => if q.id = pid then { q with isActive := false } else q) hq
      simpa [hqid] using this
  · intro hnone
    have hcnt : ¬ 0 < (orderItems.filter (fun oi => oi.productId = pid)).length := by
      intro hpos
      obtain ⟨oi, hoi⟩ := List.exists_mem_of_length_pos hpos
      have := List.mem_filter.mp hoi
      exact hnone ⟨oi, this.1, by simpa using this.2⟩
    refine ⟨?_, ?_, ?_⟩
    · simp [ProductController.deleteProduct, hperm, hfind, hown, hcnt]
    · intro q hq
      simp only [ProductController.deleteProduct, hperm, Bool.true_eq_false, if_false,
        hfind, if_neg hown, if_neg hcnt] at hq
      have := List.mem_filter.mp hq
      exact ⟨this.1, by simpa using this.2⟩
    · intro q hq hqid
      simp only [ProductController.deleteProduct, hperm, Bool.true_eq_false, if_false,
        hfind, if_neg hown, if_neg hcnt]
      exact List.mem_filter.mpr ⟨hq, by simpa using hqid⟩

/-- Witness for C3: an ADMIN deleting a one-product catalog — with a
referencing order item the product is deactivated in place; with no order
items its row is removed. -/
theorem claim_C3_witness :
    let admin : AuthUser := ⟨"a1", UserRole.ADMIN, none⟩
    let prod : Product := ⟨"p1", "s1", "Widget", 10, 5, true⟩
    ((ProductController.deleteProduct admin "p1" [prod] [⟨1, "p1", 2⟩]).1 =
        .ok "Product deactivated successfully (has existing orders)" ∧
      (ProductController.deleteProduct admin "p1" [prod] [⟨1, "p1", 2⟩]).2 =
        [prod].map (fun q => if q.id = "p1" then { q with isActive := false } else q) ∧
      (ProductController.deleteProduct admin "p1" [prod] [⟨1, "p1", 2⟩]).2.length =
        [prod].length ∧
      { prod with isActive := false } ∈
        (ProductController.deleteProduct admin "p1" [prod] [⟨1, "p1", 2⟩]).2 ∧
      ∀ q ∈ [prod], q.id ≠ "p1" →
        q ∈ (ProductController.deleteProduct admin "p1" [prod] [⟨1, "p1", 2⟩]).2) ∧
    ((ProductController.deleteProduct admin "p1" [prod]
        ([] : List OrderItemRow)).1 = .ok "Product deleted successfully" ∧
      (∀ q ∈ (ProductController.deleteProduct admin "p1" [prod] ([] : List OrderItemRow)).2,
        q ∈ [prod] ∧ q.id ≠ "p1") ∧
      ∀ q ∈ [prod], q.id ≠ "p1" →
        q ∈ (ProductController.deleteProduct admin "p1" [prod] ([] : List OrderItemRow)).2) := by
  refine ⟨(claim_C3 _ "p1" _ _ ⟨"p1", "s1", "Widget", 10, 5, true⟩
      (by decide) (by rfl) (by decide)).1 ⟨⟨1, "p1", 2⟩, by decide, rfl⟩,
    (claim_C3 _ "p1" _ _ ⟨"p1", "s1", "Widget", 10, 5, true⟩
      (by decide) (by rfl) (by decide)).2 (by decide)⟩

/-- C4: the seller sub-role gates actions exactly as specified:
`canManageProducts` iff ADMIN, or SELLER with MANAGER or INVENTORY_STAFF;
`canManageOrders` iff ADMIN, or SELLER with MANAGER; `canViewFinancials`
iff ADMIN, or SELLER with MANAGER or ACCOUNTANT; `canManageUsers` iff
ADMIN — for every (role, sellerRole) pair. -/
theorem claim_C4 : ∀ (role : UserRole) (sr : Option SellerRole),
    (PermissionUtil.canManageProducts role sr = true ↔
      role = UserRole.ADMIN ∨ (role = UserRole.SELLER ∧
        (sr = some SellerRole.MANAGER ∨ sr = some SellerRole.INVENTORY_STAFF))) ∧
    (PermissionUtil.canManageOrders role sr = true ↔
      role = UserRole.ADMIN ∨ (role = UserRole.SELLER ∧ sr = some SellerRole.MANAGER)) ∧
    (PermissionUtil.canViewFinancials role sr = true ↔
      role = UserRole.ADMIN ∨ (role = UserRole.SELLER ∧
        (sr = some SellerRole.MANAGER ∨ sr = some SellerRole.ACCOUNTANT))) ∧
    (PermissionUtil.canManageUsers role = true ↔ role = UserRole.ADMIN) := by
  decide

/-- C10: `validatePasswordStrength` accepts exactly the passwords with
length ≥ 8 and at least one uppercase letter, lowercase letter, digit and
special character; on rejection, `errors` carries exactly one fixed
message per violated rule and nothing else. -/
theorem claim_C10 : ∀ (pw : List Char),
    ((PasswordUtil.validatePasswordStrength pw).isValid = true ↔
      (8 ≤ pw.length ∧ pw.any PasswordUtil.isUpperChar = true ∧
        pw.any PasswordUtil.isLowerChar = true ∧ pw.any PasswordUtil.isDigitChar = true ∧
        pw.any PasswordUtil.isSpecialChar = true)) ∧
    (PasswordUtil.validatePasswordStrength pw).errors.count
        "Password must be at least 8 characters long" =
      (if pw.length < 8 then 1 else 0) ∧
    (PasswordUtil.validatePasswordStrength pw).errors.count
        "Password must contain at least one uppercase letter" =
      (if pw.any PasswordUtil.isUpperChar then 0 else 1) ∧
    (PasswordUtil.validatePasswordStrength pw).errors.count
        "Password must contain at least one lowercase letter" =
      (if pw.any PasswordUtil.isLowerChar then 0 else 1) ∧
    (PasswordUtil.validatePasswordStrength pw).errors.count
        "Password must contain at least one number" =
      (if pw.any PasswordUtil.isDigitChar then 0 else 1) ∧
    (PasswordUtil.validatePasswordStrength pw).errors.count
        "Password must contain at least one special character" =
      (if pw.any PasswordUtil.isSpecialChar then 0 else 1) ∧
    (PasswordUtil.validatePasswordStrength pw).errors.length =
      (if pw.length < 8 then 1 else 0) +
      (if pw.any PasswordUtil.isUpperChar then 0 else 1) +
      (if pw.any PasswordUtil.isLowerChar then 0 else 1) +
      (if pw.any PasswordUtil.isDigitChar then 0 else 1) +
      (if pw.any PasswordUtil.isSpecialChar then 0 else 1) := by
  intro pw
  simp only [PasswordUtil.validatePasswordStrength]
  cases h2 : pw.any PasswordUtil.isUpperChar <;>
    cases h3 : pw.any PasswordUtil.isLowerChar <;>
      cases h4 : pw.any PasswordUtil.isDigitChar <;>
        cases h5 : pw.any PasswordUtil.isSpecialChar <;>
          by_cases h1 : pw.length < 8 <;>
            simp [h1, h2, h3, h4, h5, List.count_append, List.count_cons, List.count_nil,
              Nat.not_lt, List.isEmpty_iff] <;> omega

/-- C5: the real-time order-status-update handler leaves the order store
untouched: it neither updates the order's status nor appends an
OrderStatusHistory row, for every user, payload and store state (it only
emits socket events). -/
theorem claim_C5 : ∀ (user : SocketUser) (orderId status : String)
    (notes : Option String) (db : OrderDB),
    (SocketHandlers.orderStatusUpdate user orderId status notes db).2.statusHistory =
        db.statusHistory ∧
    (SocketHandlers.orderStatusUpdate user orderId status notes db).2.orders = db.orders := by
  intro user orderId status notes db
  unfold SocketHandlers.orderStatusUpdate
  split
  · exact ⟨rfl, rfl⟩
  · split
    · exact ⟨rfl, rfl⟩
    · split
      · exact ⟨rfl, rfl⟩
      · exact ⟨rfl, rfl⟩

/-- C8: token-type confinement — `verifyAccessToken` accepts a token only
if it is signed with the access secret and its payload type is `access`
(dually for `verifyRefreshToken`), and consequently a token produced by
`generateRefreshToken` is always rejected by `verifyAccessToken` and vice
versa, whatever the clock values. -/
theorem claim_C8 :
    (∀ (cfg : JWTConfig) (nowMs : Nat) (t : Jwt) (p : TokenPayload),
        JWTUtil.verifyAccessToken cfg nowMs t = .ok p →
        t.secret = cfg.accessSecret ∧ t.payload.type = TokenType.access ∧ p = t.payload) ∧
    (∀ (cfg : JWTConfig) (nowMs : Nat) (t : Jwt) (p : TokenPayload),
        JWTUtil.verifyRefreshToken cfg nowMs t = .ok p →
        t.secret = cfg.refreshSecret ∧ t.payload.type = TokenType.refresh ∧ p = t.payload) ∧
    (∀ (cfg : JWTConfig) (c : UserClaims) (genMs verMs : Nat),
        JWTUtil.verifyAccessToken cfg verMs (JWTUtil.generateRefreshToken cfg c genMs) =
          .error "Invalid or expired access token") ∧
    (∀ (cfg : JWTConfig) (c : UserClaims) (genMs verMs : Nat),
        JWTUtil.verifyRefreshToken cfg verMs (JWTUtil.generateAccessToken cfg c genMs) =
          .error "Invalid or expired refresh token") := by
  refine ⟨?_, ?_, ?_, ?_⟩
  · intro cfg nowMs t p h
    unfold JWTUtil.verifyAccessToken at h
    split_ifs at h with h1 h2 h3 <;> simp_all
  · intro cfg nowMs t p h
    unfold JWTUtil.verifyRefreshToken at h
    split_ifs at h with h1 h2 h3 <;> simp_all
  · intro cfg c genMs verMs
    unfold JWTUtil.verifyAccessToken JWTUtil.generateRefreshToken
    split_ifs with h1 h2 h3 <;> simp_all
  · intro cfg c genMs verMs
    unfold JWTUtil.verifyRefreshToken JWTUtil.generateAccessToken
    split_ifs with h1 h2 h3 <;> simp_all

/-- The real-number ceiling the JavaScript `Math.ceil(total / limit)`
computes agrees with the integer formula `(total + limit - 1) / limit`. -/
theorem ceil_natCast_div (a b : Nat) (hb : 0 < b) :
    ⌈(a : ℚ) / (b : ℚ)⌉ = ((a + b - 1) / b : Nat) := by
  have hbQ : (0 : ℚ) < (b : ℚ) := by exact_mod_cast hb
  have hub : a + b - 1 < ((a + b - 1) / b + 1) * b :=
    (Nat.div_lt_iff_lt_mul hb).mp (Nat.lt_succ_self _)
  have hlb : (a + b - 1) / b * b ≤ a + b - 1 := Nat.div_mul_le_self _ _
  rw [Nat.succ_mul] at hub
  set q := (a + b - 1) / b with hq
  set m := q * b with hm
  have h1 : a ≤ m := by omega
  have h2 : m + 1 ≤ a + b := by omega
  have hmc : ((m : Nat) : ℚ) = (q : ℚ) * (b : ℚ) := by rw [hm]; push_cast; ring
  rw [Int.ceil_eq_iff]
  constructor
  · push_cast
    rw [lt_div_iff hbQ]
    have hc : ((m : Nat) : ℚ) + 1 ≤ (a : ℚ) + (b : ℚ) := by exact_mod_cast h2
    rw [hmc] at hc
    nlinarith [hc]
  · push_cast
    rw [div_le_iff hbQ]
    have hc : (a : ℚ) ≤ ((m : Nat) : ℚ) := by exact_mod_cast h1
    rw [hmc] at hc
    exact hc

/-- C7: pagination math — for validated bounds (page ≥ 1, 1 ≤ limit ≤ 100)
`paginate` reports totalPages = ceil(total / limit) (equal to the integer
formula (total + limit − 1) / limit), hasNext iff page < totalPages,
hasPrev iff page > 1, and the list endpoints' window drops exactly
(page − 1) × limit records and keeps at most limit. -/
theorem claim_C7 :
    ∀ (page limit total : Nat), 1 ≤ page → 1 ≤ limit → limit ≤ 100 →
    ∀ (data xs : List Nat),
    ((ResponseUtil.paginate data page limit total).meta.totalPages =
      ((total + limit - 1) / limit : Nat)) ∧
    ((ResponseUtil.paginate data page limit total).meta.hasNext = true ↔
      (page : Int) < ((total + limit - 1) / limit : Nat)) ∧
    ((ResponseUtil.paginate data page limit total).meta.hasPrev = true ↔ 1 < page) ∧
    (pageSlice xs page limit).length ≤ limit ∧
    (∀ i : Nat, (pageSlice xs page limit)[i]? =
      if i < limit then xs[(page - 1) * limit + i]? else none) := by
  intro page limit total hp hl hl100 data xs
  refine ⟨?_, ?_, ?_, ?_, ?_⟩
  · simp only [ResponseUtil.paginate]
    exact ceil_natCast_div total limit hl
  · simp [ResponseUtil.paginate, decide_eq_true_eq, ceil_natCast_div total limit hl]
  · simp [ResponseUtil.paginate, decide_eq_true_eq]
  · simp only [pageSlice, List.length_take]
    exact min_le_left _ _
  · intro i
    by_cases hi : i < limit
    · rw [if_pos hi]
      simp [pageSlice, List.getElem?_take, hi, List.getElem?_drop]
    · rw [if_neg hi]
      simp [pageSlice, List.getElem?_take, hi]

/-- Witness for C7 at page 2, limit 10, total 25: three total pages,
hasNext true, hasPrev true, and the slice of a 25-element list keeps
elements 10 through 19. -/
theorem claim_C7_witness :
    ((ResponseUtil.paginate [7, 8, 9] 2 10 25).meta.totalPages = ((25 + 10 - 1) / 10 : Nat)) ∧
    ((ResponseUtil.paginate [7, 8, 9] 2 10 25).meta.hasNext = true ↔
      (2 : Int) < ((25 + 10 - 1) / 10 : Nat)) ∧
    ((ResponseUtil.paginate [7, 8, 9] 2 10 25).meta.hasPrev = true ↔ 1 < 2) ∧
    (pageSlice (List.range 25) 2 10).length ≤ 10 ∧
    (∀ i : Nat, (pageSlice (List.range 25) 2 10)[i]? =
      if i < 10 then (List.range 25)[(2 - 1) * 10 + i]? else none) :=
  claim_C7 2 10 25 (by decide) (by decide) (by decide) [7, 8, 9] (List.range 25)

/-- C6: the centralized error handler — Prisma P2002 maps to 409 and P2025
to 404, a Zod error to 400 with the per-field {field, message, value}
list, JWT verification errors to 401, and every outcome carries the
envelope flag success = false. -/
theorem claim_C6 :
    (∀ e : ErrInput, e.code = some "P2002" →
      e.name ≠ some "ZodError" → e.name ≠ some "ValidationError" →
      e.message ≠ "Not allowed by CORS" →
      includesSubstr e.message "Too many requests" = false →
      (errorHandler e).1 = 409) ∧
    (∀ e : ErrInput, e.code = some "P2025" →
      e.name ≠ some "ZodError" → e.name ≠ some "ValidationError" →
      e.message ≠ "Not allowed by CORS" →
      includesSubstr e.message "Too many requests" = false →
      (errorHandler e).1 = 404) ∧
    (∀ e : ErrInput, e.name = some "ZodError" →
      errorHandler e = (400, ⟨false, "Validation failed", none, some 400,
        some (e.issues.map (fun i =>
          ⟨String.intercalate "." i.path, i.message, i.received⟩))⟩)) ∧
    (∀ e : ErrInput,
      (e.name = some "JsonWebTokenError" ∨ e.name = some "TokenExpiredError") →
      e.code = none →
      e.message ≠ "Not allowed by CORS" →
      includesSubstr e.message "Too many requests" = false →
      (errorHandler e).1 = 401) ∧
    (∀ e : ErrInput, (errorHandler e).2.success = false) := by
  refine ⟨?_, ?_, ?_, ?_, ?_⟩
  · intro e hc hz hv hm hs
    simp [errorHandler, hc, hz, hv, hm, hs]
  · intro e hc hz hv hm hs
    simp [errorHandler, hc, hz, hv, hm, hs]
  · intro e hz
    simp [errorHandler, hz]
  · intro e hn hc hm hs
    rcases hn with h | h <;>
      simp [errorHandler, h, hc, hm, hs,
        (by decide : codeStartsWithP none = false)]
  · intro e
    by_cases hz : e.name = some "ZodError"
    · simp [errorHandler, hz]
    · by_cases hv : e.name = some "ValidationError"
      · simp [errorHandler, hz, hv]
      · simp [errorHandler, hz, hv]

/-- Witness for C6 at concrete error objects: a P2002 constraint
violation, a P2025 missing record, a Zod issue list, and a JWT
verification failure, each mapped as claimed, plus the envelope flag. -/
theorem claim_C6_witness :
    (errorHandler ⟨some "PrismaClientKnownRequestError", some "P2002", none,
        "Unique constraint failed on the fields: (email)", some ["email"], [], []⟩).1 = 409 ∧
    (errorHandler ⟨some "PrismaClientKnownRequestError", some "P2025", none,
        "An operation failed because it depends on one or more records that were required but not found.",
        none, [], []⟩).1 = 404 ∧
    errorHandler ⟨some "ZodError", none, none, "", none,
        [⟨["body", "email"], "Invalid email format", "notanemail"⟩], []⟩ =
      (400, ⟨false, "Validation failed", none, some 400,
        some (([⟨["body", "email"], "Invalid email format", "notanemail"⟩] :
            List ZodIssueIn).map
          (fun i => ⟨String.intercalate "." i.path, i.message, i.received⟩))⟩) ∧
    (errorHandler ⟨some "JsonWebTokenError", none, none, "jwt malformed",
        none, [], []⟩).1 = 401 ∧
    (errorHandler ⟨some "PrismaClientKnownRequestError", some "P2002", none,
        "Unique constraint failed on the fields: (email)", some ["email"], [], []⟩).2.success =
      false := by
  refine ⟨claim_C6.1 _ (by rfl) (by decide) (by decide) (by decide) (by decide),
    claim_C6.2.1 _ (by rfl) (by decide) (by decide) (by decide) (by decide),
    claim_C6.2.2.1 _ (by rfl),
    claim_C6.2.2.2.1 _ (Or.inl (by rfl)) (by rfl) (by decide) (by decide),
    claim_C6.2.2.2.2 _⟩

/-- Witness for C8 at a concrete configuration and token: a freshly
generated access token satisfies the necessary conditions extracted by the
theorem. -/
theorem claim_C8_witness :
    (JWTUtil.generateAccessToken ⟨"access-secret-key", "refresh-secret-key"⟩
        ⟨"u1", "buyer@example.com", UserRole.BUYER, none⟩ 0).secret = "access-secret-key" ∧
    (JWTUtil.generateAccessToken ⟨"access-secret-key", "refresh-secret-key"⟩
        ⟨"u1", "buyer@example.com", UserRole.BUYER, none⟩ 0).payload.type =
      TokenType.access ∧
    (JWTUtil.generateAccessToken ⟨"access-secret-key", "refresh-secret-key"⟩
        ⟨"u1", "buyer@example.com", UserRole.BUYER, none⟩ 0).payload =
      (JWTUtil.generateAccessToken ⟨"access-secret-key", "refresh-secret-key"⟩
        ⟨"u1", "buyer@example.com", UserRole.BUYER, none⟩ 0).payload :=
  claim_C8.1 ⟨"access-secret-key", "refresh-secret-key"⟩ 0
    (JWTUtil.generateAccessToken ⟨"access-secret-key", "refresh-secret-key"⟩
      ⟨"u1", "buyer@example.com", UserRole.BUYER, none⟩ 0)
    (JWTUtil.generateAccessToken ⟨"access-secret-key", "refresh-secret-key"⟩
      ⟨"u1", "buyer@example.com", UserRole.BUYER, none⟩ 0).payload (by rfl)

end Ecom
